import Mathlib

/-!
Verification of the md-merge repository: a shallow embedding of its merge
engine, mode selection and CLI exit-code mapping, with theorems checking the
natural-language specification against the code.

The CLI module (`src/md_merge/cli.py`) is embedded from its source.  The
modules `merger.py`, `file_handler.py` and `exceptions.py` are not present in
the repository snapshot (only their tests and their callers are), so those
parts are modelled from the spec, as indicated by their doc comments.
-/

namespace MdMerge

/-! ## Exceptions -/

/-- Modelled from the spec: the `md_merge.exceptions` module (absent from the
snapshot).  `MdMergeError` is the application base class; `ValidationError`,
`FileNotFoundError`, `NotAFileError`, `DirectoryNotFoundError`,
`NotADirectoryError` and `FileProcessingError` are its subclasses (spec §7
taxonomy, and the import list of `cli.py`).  They are distinct from the
Python builtins `ValueError` and `FileNotFoundError`: the custom
`FileNotFoundError` shadows the builtin in `cli.py`'s namespace, so a builtin
`FileNotFoundError` instance is not an instance of any custom class.  Each
constructor carries the exception's message string. -/
inductive PyExc where
  | validationError (msg : String)
  | valueError (msg : String)
  | mdFileNotFoundError (msg : String)
  | notAFileError (msg : String)
  | directoryNotFoundError (msg : String)
  | notADirectoryError (msg : String)
  | fileProcessingError (msg : String)
  | mdMergeError (msg : String)
  | builtinFileNotFoundError (msg : String)
  | otherError (msg : String)
  deriving DecidableEq, Repr

/-- `isinstance(e, ValidationError)` for the modelled hierarchy. -/
def isValidationError : PyExc → Bool
  | .validationError _ => true
  | _ => false

/-- `isinstance(e, ValueError)` (the Python builtin). -/
def isValueError : PyExc → Bool
  | .valueError _ => true
  | _ => false

/-- `isinstance(e, md_merge.exceptions.FileNotFoundError)` — the custom class
imported by `cli.py`, which shadows the builtin there. -/
def isMdFileNotFoundError : PyExc → Bool
  | .mdFileNotFoundError _ => true
  | _ => false

/-- `isinstance(e, NotAFileError)`. -/
def isNotAFileError : PyExc → Bool
  | .notAFileError _ => true
  | _ => false

/-- `isinstance(e, DirectoryNotFoundError)`. -/
def isDirectoryNotFoundError : PyExc → Bool
  | .directoryNotFoundError _ => true
  | _ => false

/-- `isinstance(e, NotADirectoryError)` (the custom class). -/
def isNotADirectoryError : PyExc → Bool
  | .notADirectoryError _ => true
  | _ => false

/-- `isinstance(e, FileProcessingError)`. -/
def isFileProcessingError : PyExc → Bool
  | .fileProcessingError _ => true
  | _ => false

/-- `isinstance(e, MdMergeError)`: true for every custom application
exception (they all subclass the base class), false for builtins. -/
def isMdMergeError : PyExc → Bool
  | .validationError _ => true
  | .mdFileNotFoundError _ => true
  | .notAFileError _ => true
  | .directoryNotFoundError _ => true
  | .notADirectoryError _ => true
  | .fileProcessingError _ => true
  | .mdMergeError _ => true
  | _ => false

/-! ## Timestamps -/

/-- A wall-clock instant in UTC, as sampled by `datetime.datetime.now(UTC)`. -/
structure DateTime where
  year : Nat
  month : Nat
  day : Nat
  hour : Nat
  minute : Nat
  second : Nat
  deriving DecidableEq, Repr

/-- Zero-pad a numeral to two digits, as `strftime` does for `%m %d %H %M %S`. -/
def pad2 (n : Nat) : String :=
  if n < 10 then "0" ++ toString n else toString n

/-- Modelled from the spec: the timestamp format
`YYYY-MM-DD HH:MM:SS <TZ>` (Python `strftime("%Y-%m-%d %H:%M:%S %Z")` on a
UTC-aware datetime, so the timezone name renders as `UTC`). -/
def formatTimestamp (t : DateTime) : String :=
  toString t.year ++ "-" ++ pad2 t.month ++ "-" ++ pad2 t.day ++ " " ++
    pad2 t.hour ++ ":" ++ pad2 t.minute ++ ":" ++ pad2 t.second ++ " UTC"

/-! ## Merge engine (modelled from the spec: `merger.py` is absent) -/

/-- Outcome of `path.read_text(encoding="utf-8")` on one input file:
success with the decoded content, a missing-file error, a generic OS-level
error, or any other (unexpected) exception, which carries the exception
value that propagates. -/
inductive ReadResult where
  | ok (content : String)
  | notFound
  | osError
  | unexpected (e : PyExc)
  deriving DecidableEq, Repr

/-- Log records emitted by the merge engine. -/
inductive LogEvent where
  | warnSkipNotFound (path : String)
  | errSkipOSError (path : String)
  | infoMergedInto (outputPath : String)
  | infoCompleted
  deriving DecidableEq, Repr

/-- Modelled from the spec: `HEADER_TEMPLATE` of `merger.py` (absent from the
snapshot).  The exact template text is not pinned by the spec; what matters
is that it renders the three placeholder fields `final_document_title`,
`timestamp` and `file_count` once at the top of the document (spec §6). -/
def headerTemplate (final_document_title timestamp : String) (file_count : Nat) : String :=
  "# " ++ final_document_title ++ "\n\nMerged on: " ++ timestamp ++
    "\nFiles merged: " ++ toString file_count ++ "\n\n"

/-- Modelled from the spec: `SEPARATOR_TEMPLATE` of `merger.py` (absent from
the snapshot), a banner naming its single placeholder field `source_path`
(spec §6; the tests show it contains the text `**Source file name**`). -/
def separatorTemplate (source_path : String) : String :=
  "\n\n---\n**Source file name**: " ++ source_path ++ "\n\n"

/-- Modelled from the spec: the merge engine's default for an absent caller
title ("defaults to a generic title if absent", spec §4.4 step 2). -/
def resolveTitle : Option String → String
  | some t => t
  | none => "Merged Document"

/-- Modelled from the spec: the body-assembly loop of `merge_files`
(spec §4.4 step 3).  `read` is the filesystem's response to
`read_text`; `i` is the position of the head of the remaining list in the
original `inputPaths`.  A successful read at position `i > 0` is preceded by
the separator banner naming the path; a missing-file error logs a warning
and skips; an OS-level error logs an error and skips; any other exception
propagates, aborting the merge. -/
def mergeBodyAux (read : String → ReadResult) : List String → Nat →
    Except PyExc (String × List LogEvent)
  | [], _ => .ok ("", [])
  | p :: rest, i =>
    match read p with
    | .ok c =>
      match mergeBodyAux read rest (i + 1) with
      | .error e => .error e
      | .ok (s, logs) =>
        .ok ((if i = 0 then c else separatorTemplate p ++ c) ++ s, logs)
    | .notFound =>
      match mergeBodyAux read rest (i + 1) with
      | .error e => .error e
      | .ok (s, logs) => .ok (s, .warnSkipNotFound p :: logs)
    | .osError =>
      match mergeBodyAux read rest (i + 1) with
      | .error e => .error e
      | .ok (s, logs) => .ok (s, .errSkipOSError p :: logs)
    | .unexpected e => .error e

/-- Modelled from the spec: `merger.merge_files(input_paths, output_path,
title)` (spec §4.4).  The clock is a stream of instants; a single timestamp
is captured at invocation start (`clock 0`) and used for the header, whose
`file_count` is the number of requested input paths.  The result is either
the propagated unexpected exception (no output written) or the assembled
document together with the engine's log records. -/
def merge_files (clock : Nat → DateTime) (read : String → ReadResult)
    (inputPaths : List String) (outputPath : String) (title : Option String) :
    Except PyExc (String × List LogEvent) :=
  let ts := formatTimestamp (clock 0)
  let header := headerTemplate (resolveTitle title) ts inputPaths.length
  match mergeBodyAux read inputPaths 0 with
  | .error e => .error e
  | .ok (body, logs) =>
    .ok (header ++ body, logs ++ [.infoMergedInto outputPath, .infoCompleted])

/-- The filesystem effect of `merge_files`: on success the document is
written (in one write call) to `outputPath`, overwriting any existing file
there; on a propagated exception nothing is written and the filesystem is
unchanged.  `fs` maps a path to the content of the file at that path, if
any. -/
def merge_files_fs (fs : String → Option String) (clock : Nat → DateTime)
    (read : String → ReadResult) (inputPaths : List String)
    (outputPath : String) (title : Option String) :
    (String → Option String) × Except PyExc (List LogEvent) :=
  match merge_files clock read inputPaths outputPath title with
  | .error e => (fs, .error e)
  | .ok (doc, logs) =>
    (fun q => if q = outputPath then some doc else fs q, .ok logs)

/-! ## File handler (modelled from the spec: `file_handler.py` is absent) -/

/-- What the filesystem holds at a candidate path, as observed by
`Path.exists` / `Path.is_file` / `Path.is_dir`: nothing, a regular file, a
directory, or something else (device, socket, …). -/
inductive FileStat where
  | missing
  | file
  | dir
  | other
  deriving DecidableEq, Repr

/-- The enumerated tag recording which input form was chosen (spec §3). -/
inductive MergeType where
  | FILES
  | DIRECTORY
  deriving DecidableEq, Repr

/-- Modelled from the spec: `file_handler.select_merge_type(files,
directory)` (spec §4.2).  Returns FILES if `files` is non-empty/non-None
(explicit files take precedence over a directory), DIRECTORY if `files` is
falsy and `directory` is set, and raises a `ValueError` otherwise; `None`
and the empty list are equivalent falsy states for `files`. -/
def select_merge_type (files : Option (List String)) (directory : Option String) :
    Except PyExc MergeType :=
  if (files.getD []) ≠ [] then .ok .FILES
  else if directory.isSome then .ok .DIRECTORY
  else .error (.valueError "No valid merge type found. Please specify files or a directory.")

/-- Modelled from the spec: `file_handler.validate_inputs(files, directory)`,
the pre-flight Path Validator entry point called by the CLI before any merge
work (spec §4.1).  It fails with a `ValidationError` when neither a
non-empty file list nor a directory was supplied, and, when directory mode
will be chosen (empty file list, directory set), fails with a
`DirectoryNotFoundError` if the directory does not exist and a
`NotADirectoryError` if the path exists but is not a directory.  Per-file
checks live in `validate_input_files`, which the CLI calls separately in
files mode. -/
def validate_inputs (stat : String → FileStat) (files : List String)
    (directory : Option String) : Option PyExc :=
  match files, directory with
  | [], none => some (.validationError "No input files or directory specified.")
  | [], some d =>
    match stat d with
    | .missing => some (.directoryNotFoundError d)
    | .dir => none
    | _ => some (.notADirectoryError d)
  | _ :: _, _ => none

/-- Modelled from the spec: `file_handler.validate_input_files(files)`
(spec §4.1, explicit-file mode).  Checks every listed path in input order,
short-circuiting on the first failure: a missing path raises the custom
`FileNotFoundError`, a path that exists but is not a regular file raises
`NotAFileError`. -/
def validate_input_files (stat : String → FileStat) : List String → Option PyExc
  | [] => none
  | p :: rest =>
    match stat p with
    | .missing => some (.mdFileNotFoundError p)
    | .file => validate_input_files stat rest
    | _ => some (.notAFileError p)

/-- Modelled from the spec: `file_handler.find_markdown_files(directory)`
(spec §4.3).  `listing` enumerates the recursive walk of the directory tree
in filesystem order; the scanner keeps every file whose name ends with the
`.md` extension and sorts the result in ascending lexicographic order by
full path string.  An empty result is not an error. -/
def find_markdown_files (listing : String → List String) (d : String) : List String :=
  (((listing d).filter (fun p => p.endsWith ".md")).mergeSort (fun a b => a ≤ b))

/-! ## CLI (embedded from `src/md_merge/cli.py`) -/

/-- The parsed command-line arguments (`argparse` namespace): positional
`files`, `--dir` (`-d`), `--output` (`-o`), `--verbose` (`-v`). -/
structure CliArgs where
  files : List String
  directory : Option String
  output : String
  verbose : Bool

/-- The ambient world `main` runs against: filesystem stats, the recursive
directory walk, per-file read outcomes, the clock stream and the initial
file contents. -/
structure World where
  stat : String → FileStat
  listing : String → List String
  read : String → ReadResult
  clock : Nat → DateTime
  contents : String → Option String

/-- Log records emitted by `cli.main`. -/
inductive CliLog where
  | modeFiles
  | modeDirectory
  | warnNoFiles (d : String)
  | errorExit (e : PyExc)
  | mergeLog (ev : LogEvent)
  | completed
  deriving DecidableEq, Repr

/-- The exception-to-exit-code dispatch of `cli.main`'s `except` chain
(cli.py lines 119–133): the first clause whose class matches the raised
exception decides the code.  Note the `FileNotFoundError` in the second
clause is `md_merge.exceptions.FileNotFoundError`, imported at the top of
`cli.py`, not the Python builtin. -/
def exceptionExitCode (e : PyExc) : Nat :=
  if isValidationError e || isValueError e then 1
  else if isMdFileNotFoundError e || isNotAFileError e ||
      isDirectoryNotFoundError e || isNotADirectoryError e then 2
  else if isFileProcessingError e then 3
  else if isMdMergeError e then 4
  else 10

/-- The tail of `cli.main` after input paths are resolved: run
`merger.merge_files(input_paths, args.output)` (no title argument), map a
propagated exception through the `except` chain, and on success log
completion and return exit code 0. -/
def finishMerge (w : World) (args : CliArgs) (inputPaths : List String)
    (pre : List CliLog) : Nat × List CliLog × (String → Option String) :=
  match merge_files_fs w.contents w.clock w.read inputPaths args.output none with
  | (fs, .error e) => (exceptionExitCode e, pre ++ [.errorExit e], fs)
  | (fs, .ok logs) => (0, pre ++ logs.map .mergeLog ++ [.completed], fs)

/-- `cli.main` (cli.py lines 84–137): validate inputs, pick the mode
(`if args.files: … elif args.directory: …`), in directory mode treat an
empty scan as a successful no-op (warning, exit 0), otherwise merge; every
exception escaping the `try` block is mapped to an exit code by the
`except` chain.  The result is the exit code, the logs, and the final file
contents. -/
def main (w : World) (args : CliArgs) : Nat × List CliLog × (String → Option String) :=
  match validate_inputs w.stat args.files args.directory with
  | some e => (exceptionExitCode e, [.errorExit e], w.contents)
  | none =>
    if args.files ≠ [] then
      match validate_input_files w.stat args.files with
      | some e => (exceptionExitCode e, [.modeFiles, .errorExit e], w.contents)
      | none => finishMerge w args args.files [.modeFiles]
    else
      match args.directory with
      | some d =>
        let found := find_markdown_files w.listing d
        if found = [] then (0, [.modeDirectory, .warnNoFiles d], w.contents)
        else finishMerge w args found [.modeDirectory]
      | none => finishMerge w args [] []

/-! ## Claim-side expressions

These definitions follow the wording of the specification (header followed
by each file's content in input order, separators before every file but the
first, skipped files omitted while the rest keep their relative order) and
are compared against the engine model in the theorems below. -/

/-- The spec's rendering of a tail file: separator banner naming the source
path, then its content. -/
def joinFrom (content : String → String) : List String → String
  | [] => ""
  | p :: rest => separatorTemplate p ++ content p ++ joinFrom content rest

/-- The spec's document body for an all-readable input list: each file's
content in input order, a separator before every file except the first. -/
def joinBody (content : String → String) : List String → String
  | [] => ""
  | p :: rest => content p ++ joinFrom content rest

/-- The spec's whole document for an all-readable input list: rendered
header (title, timestamp, `file_count` = number of requested paths), then
the body. -/
def renderedDoc (content : String → String) (paths : List String)
    (title : Option String) (t : DateTime) : String :=
  headerTemplate (resolveTitle title) (formatTimestamp t) paths.length ++
    joinBody content paths

/-- The contents of the readable files, in original relative order; files
whose read fails recoverably are omitted. -/
def okContents (read : String → ReadResult) : List String → List String
  | [] => []
  | p :: rest =>
    match read p with
    | .ok c => c :: okContents read rest
    | _ => okContents read rest

/-- Interleave framing strings around an ordered list of contents:
`interleave [g₀, …, gₙ] [c₀, …, cₙ₋₁] = g₀ ++ c₀ ++ g₁ ++ … ++ cₙ₋₁ ++ gₙ`.
A document of this shape contains `c₀, …, cₙ₋₁` in that order. -/
def interleave : List String → List String → String
  | [g], [] => g
  | g :: gs, c :: cs => g ++ c ++ interleave gs cs
  | _, _ => ""

/-- The framing strings the merge places around the readable contents:
an empty gap before the content at input position 0, the separator banner
before every other readable content, and nothing at all for skipped
files. -/
def gapsOf (read : String → ReadResult) : List String → Nat → List String
  | [], _ => [""]
  | p :: rest, i =>
    match read p with
    | .ok _ => (if i = 0 then "" else separatorTemplate p) :: gapsOf read rest (i + 1)
    | _ => gapsOf read rest (i + 1)

/-- The skip log the spec prescribes: a warning naming each missing file
and an error naming each file with an OS-level read failure, in input
order. -/
def skipLogs (read : String → ReadResult) : List String → List LogEvent
  | [] => []
  | p :: rest =>
    match read p with
    | .notFound => .warnSkipNotFound p :: skipLogs read rest
    | .osError => .errSkipOSError p :: skipLogs read rest
    | _ => skipLogs read rest

/-- The spec's body for the tail of the input list (positions ≥ 1): every
readable file is preceded by its separator banner — including the first
successfully read one — and skipped files contribute nothing. -/
def sepAllBody (read : String → ReadResult) : List String → String
  | [] => ""
  | q :: rest =>
    (match read q with
      | .ok c => separatorTemplate q ++ c
      | _ => "") ++ sepAllBody read rest

/-- The exit-code table exactly as the specification states it: 1 for
`ValidationError` or `ValueError`; 2 for the custom `FileNotFoundError`,
`NotAFileError`, `DirectoryNotFoundError` or `NotADirectoryError`; 3 for
`FileProcessingError`; 4 for any other application-level `MdMergeError`;
10 for any other uncaught exception (which includes the Python builtin
`FileNotFoundError`, shadowed in `cli.py`'s namespace). -/
def claimedExitCode : PyExc → Nat
  | .validationError _ => 1
  | .valueError _ => 1
  | .mdFileNotFoundError _ => 2
  | .notAFileError _ => 2
  | .directoryNotFoundError _ => 2
  | .notADirectoryError _ => 2
  | .fileProcessingError _ => 3
  | .mdMergeError _ => 4
  | .builtinFileNotFoundError _ => 10
  | .otherError _ => 10

/-! ## Concrete sample data for the verification examples -/

/-- A concrete sample instant. -/
def sampleDate : DateTime := ⟨2023, 1, 1, 12, 0, 0⟩

/-- A read behavior with one missing file and one OS-level failure. -/
def sampleRead : String → ReadResult := fun p =>
  if p = "missing.md" then .notFound
  else if p = "locked.md" then .osError
  else .ok p

/-- A world whose filesystem is empty. -/
def emptyWorld : World where
  stat := fun _ => .missing
  listing := fun _ => []
  read := fun _ => .notFound
  clock := fun _ => sampleDate
  contents := fun _ => none

/-- A world holding one empty directory. -/
def dirWorld : World where
  stat := fun _ => .dir
  listing := fun _ => []
  read := fun _ => .notFound
  clock := fun _ => sampleDate
  contents := fun _ => none

/-- A world where every path is a regular file whose read raises the given
exception. -/
def raisingWorld (e : PyExc) : World where
  stat := fun _ => .file
  listing := fun _ => []
  read := fun _ => .unexpected e
  clock := fun _ => sampleDate
  contents := fun _ => none

/-! ## Helper lemmas -/

theorem exitCode_eq_claimed (e : PyExc) : exceptionExitCode e = claimedExitCode e := by
  cases e <;> rfl

theorem mergeBodyAux_all_ok_tail (read : String → ReadResult) (content : String → String) :
    ∀ (rest : List String) (i : Nat), i ≠ 0 →
      (∀ p ∈ rest, read p = .ok (content p)) →
      mergeBodyAux read rest i = .ok (joinFrom content rest, [])
  | [], _, _, _ => rfl
  | p :: rest, i, hi, h => by
    have hp := h p (List.mem_cons_self p rest)
    have ih := mergeBodyAux_all_ok_tail read content rest (i + 1) (Nat.succ_ne_zero i)
      (fun q hq => h q (List.mem_cons_of_mem p hq))
    simp [mergeBodyAux, hp, ih, joinFrom, hi, String.append_assoc]

theorem mergeBodyAux_all_ok (read : String → ReadResult) (content : String → String)
    (paths : List String) (h : ∀ p ∈ paths, read p = .ok (content p)) :
    mergeBodyAux read paths 0 = .ok (joinBody content paths, []) := by
  cases paths with
  | nil => rfl
  | cons p rest =>
    have hp := h p (List.mem_cons_self p rest)
    have ih := mergeBodyAux_all_ok_tail read content rest 1 one_ne_zero
      (fun q hq => h q (List.mem_cons_of_mem p hq))
    simp [mergeBodyAux, hp, ih, joinBody]

theorem gapsOf_length (read : String → ReadResult) :
    ∀ (paths : List String) (i : Nat),
      (gapsOf read paths i).length = (okContents read paths).length + 1
  | [], _ => rfl
  | p :: rest, i => by
    have ih := gapsOf_length read rest (i + 1)
    match hp : read p with
    | .ok c => simp [gapsOf, okContents, hp, ih]
    | .notFound => simp [gapsOf, okContents, hp, ih]
    | .osError => simp [gapsOf, okContents, hp, ih]
    | .unexpected e => simp [gapsOf, okContents, hp, ih]

theorem interleave_cons (g c : String) (gs cs : List String) :
    interleave (g :: gs) (c :: cs) = g ++ c ++ interleave gs cs := by
  simp [interleave]

theorem mergeBodyAux_skip (read : String → ReadResult) :
    ∀ (paths : List String) (i : Nat),
      (∀ p ∈ paths, ∀ e, read p ≠ .unexpected e) →
      mergeBodyAux read paths i =
        .ok (interleave (gapsOf read paths i) (okContents read paths),
             skipLogs read paths)
  | [], _, _ => rfl
  | p :: rest, i, h => by
    have hrest := fun q hq => h q (List.mem_cons_of_mem p hq)
    have ih := mergeBodyAux_skip read rest (i + 1) hrest
    match hp : read p with
    | .ok c =>
      simp only [mergeBodyAux, hp]
      rw [ih]
      rcases eq_or_ne i 0 with hi | hi
      · subst hi
        simp [gapsOf, okContents, skipLogs, hp, interleave_cons]
      · simp [gapsOf, okContents, skipLogs, hp, interleave_cons, hi, String.append_assoc]
    | .notFound =>
      simp [mergeBodyAux, hp, ih, gapsOf, okContents, skipLogs]
    | .osError =>
      simp [mergeBodyAux, hp, ih, gapsOf, okContents, skipLogs]
    | .unexpected e => exact absurd hp (h p (List.mem_cons_self p rest) e)

theorem mem_skipLogs_notFound (read : String → ReadResult) :
    ∀ (paths : List String) (p : String), p ∈ paths → read p = .notFound →
      LogEvent.warnSkipNotFound p ∈ skipLogs read paths
  | q :: rest, p, hmem, hp => by
    rcases List.mem_cons.1 hmem with h | h
    · subst h
      simp [skipLogs, hp]
    · have ih := mem_skipLogs_notFound read rest p h hp
      match hq : read q with
      | .ok c => simpa [skipLogs, hq] using ih
      | .notFound => simp [skipLogs, hq, ih]
      | .osError => simp [skipLogs, hq, ih]
      | .unexpected e => simpa [skipLogs, hq] using ih

theorem mem_skipLogs_osError (read : String → ReadResult) :
    ∀ (paths : List String) (p : String), p ∈ paths → read p = .osError →
      LogEvent.errSkipOSError p ∈ skipLogs read paths
  | q :: rest, p, hmem, hp => by
    rcases List.mem_cons.1 hmem with h | h
    · subst h
      simp [skipLogs, hp]
    · have ih := mem_skipLogs_osError read rest p h hp
      match hq : read q with
      | .ok c => simpa [skipLogs, hq] using ih
      | .notFound => simp [skipLogs, hq, ih]
      | .osError => simp [skipLogs, hq, ih]
      | .unexpected e => simpa [skipLogs, hq] using ih

theorem mergeBodyAux_sepAll (read : String → ReadResult) :
    ∀ (rest : List String) (i : Nat), i ≠ 0 →
      (∀ q ∈ rest, ∀ e, read q ≠ .unexpected e) →
      mergeBodyAux read rest i = .ok (sepAllBody read rest, skipLogs read rest)
  | [], _, _, _ => rfl
  | q :: rest, i, hi, h => by
    have ih := mergeBodyAux_sepAll read rest (i + 1) (Nat.succ_ne_zero i)
      (fun r hr => h r (List.mem_cons_of_mem q hr))
    match hq : read q with
    | .ok c => simp [mergeBodyAux, hq, ih, sepAllBody, skipLogs, hi]
    | .notFound => simp [mergeBodyAux, hq, ih, sepAllBody, skipLogs]
    | .osError => simp [mergeBodyAux, hq, ih, sepAllBody, skipLogs]
    | .unexpected e => exact absurd hq (h q (List.mem_cons_self q rest) e)

theorem mergeBodyAux_unexpected (read : String → ReadResult) (p : String) (e : PyExc)
    (hp : read p = .unexpected e) :
    ∀ (pre : List String) (post : List String) (i : Nat),
      (∀ q ∈ pre, ∀ e', read q ≠ .unexpected e') →
      mergeBodyAux read (pre ++ p :: post) i = .error e
  | [], post, i, _ => by simp [mergeBodyAux, hp]
  | q :: pre, post, i, h => by
    have ih := mergeBodyAux_unexpected read p e hp pre post (i + 1)
      (fun r hr => h r (List.mem_cons_of_mem q hr))
    match hq : read q with
    | .ok c => simp [mergeBodyAux, hq, ih]
    | .notFound => simp [mergeBodyAux, hq, ih]
    | .osError => simp [mergeBodyAux, hq, ih]
    | .unexpected e' => exact absurd hq (h q (List.mem_cons_self q pre) e')

theorem main_validate_error (w : World) (args : CliArgs) (e : PyExc)
    (h : validate_inputs w.stat args.files args.directory = some e) :
    main w args = (exceptionExitCode e, [.errorExit e], w.contents) := by
  simp [main, h]

theorem main_read_unexpected (w : World) (args : CliArgs) (p : String) (e : PyExc)
    (hf : args.files = [p]) (hstat : w.stat p = .file)
    (hread : w.read p = .unexpected e) :
    main w args = (exceptionExitCode e, [.modeFiles, .errorExit e], w.contents) := by
  simp [main, hf, validate_inputs, validate_input_files, hstat, finishMerge,
    merge_files_fs, merge_files, mergeBodyAux, hread]

theorem main_files_success (w : World) (args : CliArgs) (hne : args.files ≠ [])
    (hv : validate_input_files w.stat args.files = none)
    (hr : ∀ p ∈ args.files, ∀ e, w.read p ≠ .unexpected e) :
    (main w args).1 = 0 := by
  obtain ⟨p, rest, hf⟩ := List.exists_cons_of_ne_nil hne
  have hr' : ∀ q ∈ p :: rest, ∀ e, w.read q ≠ .unexpected e := hf ▸ hr
  have hb := mergeBodyAux_skip w.read (p :: rest) 0 hr'
  have hv' : validate_input_files w.stat (p :: rest) = none := hf ▸ hv
  simp [main, hf, validate_inputs, hv', finishMerge, merge_files_fs, merge_files, hb]

theorem main_dir_empty (w : World) (args : CliArgs) (d : String)
    (hf : args.files = []) (hd : args.directory = some d) (hdir : w.stat d = .dir)
    (hempty : find_markdown_files w.listing d = []) :
    main w args = (0, [.modeDirectory, .warnNoFiles d], w.contents) := by
  simp [main, hf, hd, validate_inputs, hdir, hempty]

/-! ## Claims -/

/-- C1: for every list of input paths, output path, title and fixed clock,
`merge_files` writes exactly one document to the output path, equal to the
rendered header (with the given title, the formatted timestamp and
`file_count` = number of requested paths) followed by each readable file's
content in input order, with a separator banner naming the source path
before every file's content except the first; an empty input list yields the
header alone and a single file yields header plus content with no
separator. -/
theorem merge_writes_rendered_document
    (fs : String → Option String) (clock : Nat → DateTime) (read : String → ReadResult)
    (paths : List String) (out : String) (title : Option String) (content : String → String)
    (h : ∀ p ∈ paths, read p = .ok (content p)) :
    merge_files_fs fs clock read paths out title =
      (fun q => if q = out then some (renderedDoc content paths title (clock 0)) else fs q,
       .ok [.infoMergedInto out, .infoCompleted]) ∧
    renderedDoc content [] title (clock 0) =
      headerTemplate (resolveTitle title) (formatTimestamp (clock 0)) 0 ∧
    ∀ p, joinBody content [p] = content p := by
  refine ⟨?_, ?_, fun p => ?_⟩
  · simp only [merge_files_fs, merge_files]
    rw [mergeBodyAux_all_ok read content paths h]
    simp [renderedDoc]
  · simp [renderedDoc, joinBody]
  · simp [joinBody, joinFrom]

/-- Witness for C1 at a concrete two-file input. -/
theorem merge_writes_rendered_document_example :
    merge_files_fs (fun _ => none) (fun _ => sampleDate)
        (fun p => .ok ("content of " ++ p)) ["a.md", "b.md"] "out.md" (some "T") =
      (fun q => if q = "out.md" then
          some (renderedDoc (fun p => "content of " ++ p) ["a.md", "b.md"]
            (some "T") sampleDate)
        else none,
       .ok [.infoMergedInto "out.md", .infoCompleted]) :=
  (merge_writes_rendered_document (fun _ => none) (fun _ => sampleDate)
    (fun p => .ok ("content of " ++ p)) ["a.md", "b.md"] "out.md" (some "T")
    (fun p => "content of " ++ p) (fun _ _ => rfl)).1

/-- C2: when some files fail to read with a missing-file or OS-level error
(and none raises an unexpected exception), `merge_files` completes, logs a
warning naming each missing file and an error naming each OS-failure file,
omits the failed files, and writes an output in which every other readable
file's content appears in the original relative order (the document is the
readable contents `okContents` interleaved with framing strings). -/
theorem merge_skips_unreadable_files
    (fs : String → Option String) (clock : Nat → DateTime) (read : String → ReadResult)
    (paths : List String) (out : String) (title : Option String)
    (h : ∀ p ∈ paths, ∀ e, read p ≠ .unexpected e) :
    merge_files clock read paths out title =
      .ok (headerTemplate (resolveTitle title) (formatTimestamp (clock 0)) paths.length ++
            interleave (gapsOf read paths 0) (okContents read paths),
           skipLogs read paths ++ [.infoMergedInto out, .infoCompleted]) ∧
    (gapsOf read paths 0).length = (okContents read paths).length + 1 ∧
    (∀ p ∈ paths, read p = .notFound →
      LogEvent.warnSkipNotFound p ∈ skipLogs read paths) ∧
    (∀ p ∈ paths, read p = .osError →
      LogEvent.errSkipOSError p ∈ skipLogs read paths) ∧
    (merge_files_fs fs clock read paths out title).1 out =
      some (headerTemplate (resolveTitle title) (formatTimestamp (clock 0)) paths.length ++
        interleave (gapsOf read paths 0) (okContents read paths)) := by
  have hb := mergeBodyAux_skip read paths 0 h
  refine ⟨?_, gapsOf_length read paths 0,
    fun p hp hnf => mem_skipLogs_notFound read paths p hp hnf,
    fun p hp hos => mem_skipLogs_osError read paths p hp hos, ?_⟩
  · simp [merge_files, hb]
  · simp [merge_files_fs, merge_files, hb]

/-- Witness for C2 at a concrete input with one missing file and one
OS-level failure. -/
theorem merge_skips_unreadable_files_example :
    merge_files (fun _ => sampleDate) sampleRead
        ["a.md", "missing.md", "locked.md", "b.md"] "out.md" none =
      .ok (headerTemplate (resolveTitle none) (formatTimestamp sampleDate) 4 ++
            interleave (gapsOf sampleRead ["a.md", "missing.md", "locked.md", "b.md"] 0)
              (okContents sampleRead ["a.md", "missing.md", "locked.md", "b.md"]),
           skipLogs sampleRead ["a.md", "missing.md", "locked.md", "b.md"] ++
             [.infoMergedInto "out.md", .infoCompleted]) :=
  (merge_skips_unreadable_files (fun _ => none) (fun _ => sampleDate) sampleRead
    ["a.md", "missing.md", "locked.md", "b.md"] "out.md" none
    (by
      intro p hp e
      by_cases h1 : p = "missing.md" <;> by_cases h2 : p = "locked.md" <;>
        simp [sampleRead, h1, h2])).1

/-- C3: the CLI exit-code mapping of `main` follows the spec's table — 0 on
success (including the directory no-op), 1 on ValidationError or ValueError,
2 on the custom FileNotFoundError / NotAFileError / DirectoryNotFoundError /
NotADirectoryError, 3 on FileProcessingError, 4 on any other MdMergeError,
and 10 on any other uncaught exception — both for exceptions raised in
validation and for exceptions propagated out of the merge engine. -/
theorem cli_exit_code_mapping :
    (∀ e, exceptionExitCode e = claimedExitCode e) ∧
    (∀ (w : World) (args : CliArgs) (e : PyExc),
      validate_inputs w.stat args.files args.directory = some e →
      (main w args).1 = claimedExitCode e) ∧
    (∀ (w : World) (args : CliArgs) (p : String) (e : PyExc),
      args.files = [p] → w.stat p = .file → w.read p = .unexpected e →
      (main w args).1 = claimedExitCode e) ∧
    (∀ (w : World) (args : CliArgs), args.files ≠ [] →
      validate_input_files w.stat args.files = none →
      (∀ p ∈ args.files, ∀ e, w.read p ≠ .unexpected e) →
      (main w args).1 = 0) ∧
    (∀ (w : World) (args : CliArgs) (d : String),
      args.files = [] → args.directory = some d → w.stat d = .dir →
      find_markdown_files w.listing d = [] → (main w args).1 = 0) := by
  refine ⟨exitCode_eq_claimed, ?_, ?_, main_files_success, ?_⟩
  · intro w args e h
    rw [main_validate_error w args e h]
    exact exitCode_eq_claimed e
  · intro w args p e hf hs hr
    rw [main_read_unexpected w args p e hf hs hr]
    exact exitCode_eq_claimed e
  · intro w args d hf hd hdir hempty
    rw [main_dir_empty w args d hf hd hdir hempty]

/-- Witness for C3: a run with neither files nor directory exits with the
validation-error code 1. -/
theorem cli_exit_code_mapping_example :
    (main emptyWorld ⟨[], none, "out.md", false⟩).1 =
      claimedExitCode (.validationError "No input files or directory specified.") :=
  cli_exit_code_mapping.2.1 emptyWorld ⟨[], none, "out.md", false⟩
    (.validationError "No input files or directory specified.") rfl

/-- C4: when the first entry of the input list fails to read with a
recoverable error, the separator banner still precedes every later entry —
in particular the first successfully read file, which is not the first list
entry, is preceded by its separator: separator placement is keyed to
position in the original input list (`sepAllBody` puts a banner before
every readable tail file). -/
theorem separator_keyed_to_input_position
    (clock : Nat → DateTime) (read : String → ReadResult) (p₀ : String)
    (rest : List String) (out : String) (title : Option String)
    (h₀ : read p₀ = .notFound ∨ read p₀ = .osError)
    (h : ∀ q ∈ rest, ∀ e, read q ≠ .unexpected e) :
    ∃ logs, merge_files clock read (p₀ :: rest) out title =
      .ok (headerTemplate (resolveTitle title) (formatTimestamp (clock 0))
            (rest.length + 1) ++ sepAllBody read rest, logs) := by
  have hb := mergeBodyAux_sepAll read rest 1 one_ne_zero h
  rcases h₀ with h₀ | h₀
  · exact ⟨.warnSkipNotFound p₀ ::
      (skipLogs read rest ++ [.infoMergedInto out, .infoCompleted]),
      by simp [merge_files, mergeBodyAux, h₀, hb]⟩
  · exact ⟨.errSkipOSError p₀ ::
      (skipLogs read rest ++ [.infoMergedInto out, .infoCompleted]),
      by simp [merge_files, mergeBodyAux, h₀, hb]⟩

/-- Witness for C4: with a missing first file, the single successfully read
file is still preceded by its separator banner. -/
theorem separator_keyed_to_input_position_example :
    ∃ logs, merge_files (fun _ => sampleDate) sampleRead
        ("missing.md" :: ["a.md"]) "out.md" none =
      .ok (headerTemplate (resolveTitle none) (formatTimestamp sampleDate) (1 + 1) ++
            sepAllBody sampleRead ["a.md"], logs) :=
  separator_keyed_to_input_position (fun _ => sampleDate) sampleRead "missing.md"
    ["a.md"] "out.md" none (Or.inl (by decide))
    (by intro q hq e; simp at hq; subst hq; simp [sampleRead])

/-- C5: if reading some input file raises an exception that is neither a
missing-file error nor an OS-level error, `merge_files` propagates that
exception, aborting the merge, and writes no output file: the filesystem is
unchanged. -/
theorem unexpected_read_error_aborts_without_output
    (fs : String → Option String) (clock : Nat → DateTime) (read : String → ReadResult)
    (pre post : List String) (p : String) (e : PyExc) (out : String) (title : Option String)
    (hpre : ∀ q ∈ pre, ∀ x, read q ≠ .unexpected x)
    (hp : read p = .unexpected e) :
    merge_files clock read (pre ++ p :: post) out title = .error e ∧
    merge_files_fs fs clock read (pre ++ p :: post) out title = (fs, .error e) := by
  have hb := mergeBodyAux_unexpected read p e hp pre post 0 hpre
  constructor
  · simp [merge_files, hb]
  · simp [merge_files_fs, merge_files, hb]

/-- Witness for C5: a ValueError raised while reading the second file
propagates and leaves the filesystem untouched. -/
theorem unexpected_read_error_aborts_without_output_example :
    merge_files (fun _ => sampleDate)
        (fun q => if q = "bad.md" then .unexpected (.valueError "Unexpected error")
          else .ok q)
        (["a.md"] ++ "bad.md" :: []) "out.md" none =
      .error (.valueError "Unexpected error") ∧
    merge_files_fs (fun _ => none) (fun _ => sampleDate)
        (fun q => if q = "bad.md" then .unexpected (.valueError "Unexpected error")
          else .ok q)
        (["a.md"] ++ "bad.md" :: []) "out.md" none =
      ((fun _ => none), .error (.valueError "Unexpected error")) :=
  unexpected_read_error_aborts_without_output (fun _ => none) (fun _ => sampleDate)
    (fun q => if q = "bad.md" then .unexpected (.valueError "Unexpected error")
      else .ok q)
    ["a.md"] [] "bad.md" (.valueError "Unexpected error") "out.md" none
    (by intro q hq x; simp at hq; subst hq; simp) (by simp)

/-- C6: `select_merge_type` returns FILES whenever `files` is a non-empty
sequence (even when a directory is also given), returns DIRECTORY whenever
`files` is empty or None and a directory is set, raises a ValueError-kind
error when both are empty or absent, and treats None and the empty sequence
as equivalent falsy states for `files`. -/
theorem select_merge_type_mode_choice :
    (∀ (l : List String) (dir : Option String), l ≠ [] →
      select_merge_type (some l) dir = .ok .FILES) ∧
    (∀ d : String, select_merge_type (some []) (some d) = .ok .DIRECTORY ∧
      select_merge_type none (some d) = .ok .DIRECTORY) ∧
    select_merge_type (some []) none =
      .error (.valueError "No valid merge type found. Please specify files or a directory.") ∧
    select_merge_type none none =
      .error (.valueError "No valid merge type found. Please specify files or a directory.") ∧
    (∀ dir : Option String, select_merge_type none dir = select_merge_type (some []) dir) := by
  refine ⟨fun l dir hl => ?_, fun d => ⟨rfl, rfl⟩, rfl, rfl, fun dir => rfl⟩
  simp [select_merge_type, hl]

/-- Witness for C6: a one-file list beats a simultaneously supplied
directory. -/
theorem select_merge_type_mode_choice_example :
    select_merge_type (some ["a.md"]) (some "dir") = .ok .FILES :=
  select_merge_type_mode_choice.1 ["a.md"] (some "dir") (by decide)

/-- C7: `merge_files` captures exactly one timestamp, at invocation start
(`clock 0`), so two runs whose clocks agree at instant 0 produce identical
results however the clocks later diverge and however many files are read;
the timestamp is formatted `YYYY-MM-DD HH:MM:SS` followed by the timezone
name. -/
theorem timestamp_captured_once_at_start
    (c₁ c₂ : Nat → DateTime) (read : String → ReadResult) (paths : List String)
    (out : String) (title : Option String) (h : c₁ 0 = c₂ 0) :
    merge_files c₁ read paths out title = merge_files c₂ read paths out title ∧
    formatTimestamp ⟨2023, 1, 1, 12, 0, 0⟩ = "2023-01-01 12:00:00 UTC" := by
  constructor
  · simp only [merge_files, h]
  · rfl

/-- Witness for C7: a clock that later drifts from the sample clock gives
the same merge result, since the two agree at instant 0. -/
theorem timestamp_captured_once_at_start_example :
    merge_files (fun _ => sampleDate) sampleRead ["a.md"] "out.md" none =
      merge_files (fun n => ⟨2023, 1, 1, 12, 0, n⟩) sampleRead ["a.md"] "out.md" none ∧
    formatTimestamp ⟨2023, 1, 1, 12, 0, 0⟩ = "2023-01-01 12:00:00 UTC" :=
  timestamp_captured_once_at_start (fun _ => sampleDate)
    (fun n => ⟨2023, 1, 1, 12, 0, n⟩) sampleRead ["a.md"] "out.md" none rfl

/-- C8: in directory mode the run fails before any merge work with a
DirectoryNotFoundError-kind error (exit code 2) if the directory does not
exist, and with a NotADirectoryError-kind error (exit code 2) if the path
exists but is not a directory; in both cases no merge log is emitted and
the filesystem is unchanged (no output written). -/
theorem directory_preflight_validation
    (w : World) (args : CliArgs) (d : String)
    (hf : args.files = []) (hd : args.directory = some d) :
    (w.stat d = .missing →
      main w args = (2, [CliLog.errorExit (.directoryNotFoundError d)], w.contents)) ∧
    (w.stat d ≠ .missing → w.stat d ≠ .dir →
      main w args = (2, [CliLog.errorExit (.notADirectoryError d)], w.contents)) := by
  constructor
  · intro hst
    have hv : validate_inputs w.stat args.files args.directory =
        some (.directoryNotFoundError d) := by
      rw [hf, hd]; simp [validate_inputs, hst]
    rw [main_validate_error w args (.directoryNotFoundError d) hv]
    rfl
  · intro h1 h2
    have hv : validate_inputs w.stat args.files args.directory =
        some (.notADirectoryError d) := by
      rw [hf, hd]
      cases hst : w.stat d with
      | missing => exact absurd hst h1
      | dir => exact absurd hst h2
      | file => simp [validate_inputs, hst]
      | other => simp [validate_inputs, hst]
    rw [main_validate_error w args (.notADirectoryError d) hv]
    rfl

/-- Witness for C8: a missing directory aborts with exit code 2 and an
unchanged filesystem. -/
theorem directory_preflight_validation_example :
    main emptyWorld ⟨[], some "docs", "out.md", false⟩ =
      (2, [CliLog.errorExit (.directoryNotFoundError "docs")], emptyWorld.contents) :=
  (directory_preflight_validation emptyWorld ⟨[], some "docs", "out.md", false⟩
    "docs" rfl rfl).1 rfl

/-- C9: when directory mode is selected and the scan finds zero matching
`.md` files, `main` logs a warning, does not invoke the merge engine (the
logs are exactly the mode line and the warning), creates no output file
(the filesystem is returned unchanged), and exits with code 0. -/
theorem directory_no_matching_files_noop
    (w : World) (args : CliArgs) (d : String)
    (hf : args.files = []) (hd : args.directory = some d) (hdir : w.stat d = .dir)
    (hempty : find_markdown_files w.listing d = []) :
    main w args = (0, [CliLog.modeDirectory, CliLog.warnNoFiles d], w.contents) :=
  main_dir_empty w args d hf hd hdir hempty

/-- Witness for C9: an existing directory with no `.md` files is a
successful no-op. -/
theorem directory_no_matching_files_noop_example :
    main dirWorld ⟨[], some "docs", "out.md", false⟩ =
      (0, [CliLog.modeDirectory, CliLog.warnNoFiles "docs"], dirWorld.contents) :=
  directory_no_matching_files_noop dirWorld ⟨[], some "docs", "out.md", false⟩
    "docs" rfl rfl rfl (by simp [find_markdown_files, dirWorld])

/-- C10: because `cli.py` imports the custom `FileNotFoundError`, which
shadows the Python builtin in its `except` clauses, a builtin
`FileNotFoundError` escaping the merge engine is caught only by the generic
handler: it maps to exit code 10, not to the file/directory code 2 reserved
for the custom class. -/
theorem builtin_file_not_found_exits_ten :
    (∀ m, exceptionExitCode (.builtinFileNotFoundError m) = 10 ∧
      exceptionExitCode (.mdFileNotFoundError m) = 2) ∧
    (∀ (w : World) (args : CliArgs) (p : String) (m : String),
      args.files = [p] → w.stat p = .file →
      w.read p = .unexpected (.builtinFileNotFoundError m) →
      (main w args).1 = 10) := by
  refine ⟨fun m => ⟨rfl, rfl⟩, fun w args p m hf hs hr => ?_⟩
  rw [main_read_unexpected w args p (.builtinFileNotFoundError m) hf hs hr]
  rfl

/-- Witness for C10: a builtin missing-file error escaping the merge yields
exit code 10. -/
theorem builtin_file_not_found_exits_ten_example :
    (main (raisingWorld (.builtinFileNotFoundError "gone"))
      ⟨["a.md"], none, "out.md", false⟩).1 = 10 :=
  builtin_file_not_found_exits_ten.2 (raisingWorld (.builtinFileNotFoundError "gone"))
    ⟨["a.md"], none, "out.md", false⟩ "a.md" "gone" rfl rfl rfl

end MdMerge
